import Mathlib

/-!
Verification of the telemetry core of the Computer-monitor repository
(`monitor.py`, plus the standalone test script).  The embedding models the
mutable state of `MonitorDialog`, the report encoding of `send_raw_report`,
the two-point CPU sampling of `get_cpu_usage`, and the connect / disconnect /
tick state machine driven by the Qt timer.
-/

namespace Monitor

/-- `REPORT_LENGTH = 32` (monitor.py line 16). -/
def REPORT_LENGTH : Nat := 32

/-- Python's builtin `round` on the formatted counter value: round half to even
(banker's rounding), modelled on the rationals. -/
def pyRound (q : ℚ) : ℤ :=
  let f := q.floor
  let frac := q - (f : ℚ)
  if frac < 1/2 then f
  else if 1/2 < frac then f + 1
  else if f % 2 = 0 then f else f + 1

/-- An opened HID endpoint, as returned by `hid.Device(path=...)`; carries the
strings interpolated into the connect status message. -/
structure HidDevice where
  manufacturer : String
  product : String
deriving DecidableEq

/-- Outcome of the `self.hid_interface.write(request_report)` call inside
`send_raw_report`: either the write succeeds or the hid library raises
(an IoError on a dead handle). -/
inductive WriteOutcome where
  | ok
  | ioError
deriving DecidableEq

/-- The mutable state of `MonitorDialog` touched by the core operations:
`hid_interface` (monitor.py line 38), the periodic timer's running flag
(lines 47-49, 123, 131), `is_first_sample` (line 43), the status log appended
by `log_status` (lines 74-76), and the trace of reports handed to
`hid_interface.write` (observation of the outbound exchanges). -/
structure MonitorState where
  hid_interface : Option HidDevice
  timer_active : Bool
  is_first_sample : Bool
  statuses : List String
  written : List (List Int)
deriving DecidableEq

/-- `MonitorDialog.log_status` (lines 74-76): append a status message. -/
def log_status (s : MonitorState) (message : String) : MonitorState :=
  { s with statuses := s.statuses ++ [message] }

/-- The state established by `__init__` (lines 38, 43, 47-49) before the
auto-connect call at line 72: no handle, timer not started, first-sample flag
set. -/
def initState : MonitorState :=
  { hid_interface := none, timer_active := false, is_first_sample := true,
    statuses := [], written := [] }

/-- `MonitorDialog.get_cpu_usage` (lines 92-101) as a function of the current
`is_first_sample` flag and the formatted counter value delivered by
`win32pdh.GetFormattedCounterValue`; returns the sample together with the new
flag.  On the first call the flag is cleared and 0 is returned; afterwards the
rounded counter value is returned with the flag unchanged. -/
def get_cpu_usage (is_first_sample : Bool) (formatted_value : ℚ) : Int × Bool :=
  if is_first_sample then (0, false)
  else (pyRound formatted_value, is_first_sample)

/-- Lines 150-152 of `send_raw_report`:
`request_data = [0x00] * (REPORT_LENGTH + 1)` followed by the Python slice
assignment `request_data[1:len(data) + 1] = data`.  Slice assignment on a
33-element list replaces the elements from index 1 up to (exclusive)
`len(data) + 1`, clamped at the end of the list, by the whole of `data` —
growing the list when `data` has more than 32 elements. -/
def encodeReport (data : List Int) : List Int :=
  let request_data : List Int := List.replicate (REPORT_LENGTH + 1) 0
  request_data.take 1 ++ data ++ request_data.drop (data.length + 1)

/-- One hex byte as formatted by Python's `f"0x{byte:02X}"`. -/
def hexChar (n : Nat) : Char :=
  if n < 10 then Char.ofNat (48 + n) else Char.ofNat (55 + n)

/-- `f"0x{byte:02X}"` for a byte value. -/
def hexByte (b : Nat) : String :=
  String.mk ['0', 'x', hexChar (b / 16 % 16), hexChar (b % 16)]

/-- Line 157: `" ".join(f"0x{byte:02X}" for byte in response_report)` with the
`Received: ` caption of line 158. -/
def formatResponse (resp : List Nat) : String :=
  "Received: " ++ String.intercalate " " (resp.map hexByte)

/-- `MonitorDialog.send_raw_report` (lines 144-160).  `data` is the list passed
in (command byte first), `w` the outcome of the hid write, `resp` the bytes
returned by `hid_interface.read` (empty on timeout).  The function has no
try/except, so a raising write is modelled as `Except.error` carrying the
state at the raise point; all other paths return `Except.ok`. -/
def send_raw_report (s : MonitorState) (data : List Int) (w : WriteOutcome)
    (resp : List Nat) : Except MonitorState MonitorState :=
  match s.hid_interface with
  | none => .ok (log_status s "Not connected to any device.")
  | some _ =>
    let s1 := { s with written := s.written ++ [encodeReport data] }
    match w with
    | .ioError => .error s1
    | .ok =>
      if resp.isEmpty then .ok (log_status s1 "No response received.")
      else .ok (log_status s1 (formatResponse resp))

/-- Line 167 of `send_system_metrics` and `construct_data` of the test script:
`data = [0x01, cpu & 0xFF, ram & 0xFF]`.  Python's `&` on arbitrary-precision
integers is two's-complement bitwise and, i.e. `Int.land`. -/
def construct_data (cpu ram : Int) : List Int :=
  [1, Int.land cpu 255, Int.land ram 255]

/-- `MonitorDialog.send_system_metrics` (lines 162-168), the tick body: early
return while no handle is held, otherwise sample CPU (mutating the
first-sample flag) and RAM and send the constructed report. -/
def send_system_metrics (s : MonitorState) (formatted_value : ℚ) (ram : Int)
    (w : WriteOutcome) (resp : List Nat) : Except MonitorState MonitorState :=
  match s.hid_interface with
  | none => .ok s
  | some _ =>
    let c := get_cpu_usage s.is_first_sample formatted_value
    let s1 := { s with is_first_sample := c.2 }
    send_raw_report s1 (construct_data c.1 ram) w resp

/-- `MonitorDialog.handle_connect` (lines 113-125).  `discovered` is the result
of `get_hid_interface()` (lines 103-111): `some dev` when an enumeration entry
matched the usage filter and was opened, `none` otherwise. -/
def handle_connect (s : MonitorState) (discovered : Option HidDevice) : MonitorState :=
  match s.hid_interface with
  | some _ => log_status s "Already connected."
  | none =>
    let s1 := { s with hid_interface := discovered }
    match discovered with
    | some dev =>
      let s2 := log_status s1
        ("Connected to device: " ++ dev.manufacturer ++ " " ++ dev.product)
      { s2 with timer_active := true }
    | none =>
      log_status s1
        "No device found. Check if device is plugged in and correct VID/PID/usage values."

/-- `MonitorDialog.handle_disconnect` (lines 127-136): stop the timer, close
and clear the handle, log; or log `No active connection` when already
disconnected. -/
def handle_disconnect (s : MonitorState) : MonitorState :=
  match s.hid_interface with
  | some _ =>
    log_status { s with timer_active := false, hid_interface := none }
      "Disconnected from HID device."
  | none => log_status s "No active connection to disconnect."

/-- The external events that drive `MonitorDialog`: the two button slots and a
timer tick, each carrying the environment data its handler consumes. -/
inductive Event where
  | connect (discovered : Option HidDevice)
  | disconnect
  | tick (formatted_value : ℚ) (ram : Int) (w : WriteOutcome) (resp : List Nat)

/-- One event step.  An exception escaping the tick slot leaves the state as it
was at the raise point: the Qt event loop keeps running and neither the timer
nor the handle is touched. -/
def step (s : MonitorState) : Event → MonitorState
  | .connect d => handle_connect s d
  | .disconnect => handle_disconnect s
  | .tick v r w resp =>
    match send_system_metrics s v r w resp with
    | .ok s1 => s1
    | .error s1 => s1

/-- Run a sequence of events from a state. -/
def run (s : MonitorState) (es : List Event) : MonitorState := es.foldl step s

/-- The state reached inside a connected tick right after the hid write was
attempted: the first-sample flag has been updated by `get_cpu_usage` and the
encoded report appended to the write trace. -/
def tickWriteState (s : MonitorState) (formatted_value : ℚ) (ram : Int) : MonitorState :=
  let c := get_cpu_usage s.is_first_sample formatted_value
  { s with is_first_sample := c.2,
           written := s.written ++ [encodeReport (construct_data c.1 ram)] }

/-- A concrete opened device, for witnesses. -/
def devA : HidDevice := { manufacturer := "Acme", product := "Keyboard" }

/-- A concrete connected state with the baseline already established. -/
def connState : MonitorState :=
  { hid_interface := some devA, timer_active := true, is_first_sample := false,
    statuses := [], written := [] }

/-- Shape of `encodeReport` on data of at most 32 bytes: one leading zero, the
data, and zero padding up to 33 bytes. -/
theorem encodeReport_eq_of_le (data : List Int) (h : data.length ≤ 32) :
    encodeReport data = 0 :: (data ++ List.replicate (32 - data.length) 0) := by
  simp only [encodeReport, REPORT_LENGTH, List.take_replicate, List.drop_replicate]
  have h1 : min 1 (32 + 1) = 1 := by omega
  have h2 : 32 + 1 - (data.length + 1) = 32 - data.length := by omega
  rw [h1, h2]
  rfl

/-- Shape of `encodeReport` on overlong data: the slice assignment replaces the
whole tail of the 33-byte buffer and splices in all of `data`, growing the
result past 33 bytes with no padding. -/
theorem encodeReport_eq_of_gt (data : List Int) (h : 32 < data.length) :
    encodeReport data = 0 :: data := by
  simp only [encodeReport, REPORT_LENGTH, List.take_replicate, List.drop_replicate]
  have h1 : min 1 (32 + 1) = 1 := by omega
  have h2 : 32 + 1 - (data.length + 1) = 0 := by omega
  rw [h1, h2]
  simp

/-- C1: for every command byte and payload of length at most 31, the encoding
performed by `send_raw_report` is exactly 33 bytes: byte 0 is the 0x00 report
id, byte 1 the command, the payload follows, and every remaining byte is 0x00;
in particular the tick data for command 0x01, cpu = 57, ram = 82 encodes to
[0x00, 0x01, 0x39, 0x52, 0x00, ..., 0x00]. -/
theorem encode_frames_report (command : Int) (payload : List Int)
    (h : payload.length ≤ 31) :
    encodeReport (command :: payload)
      = 0 :: command :: (payload ++ List.replicate (31 - payload.length) 0) ∧
    (encodeReport (command :: payload)).length = 33 ∧
    encodeReport (construct_data 57 82) = 0 :: 1 :: 57 :: 82 :: List.replicate 29 0 := by
  have hlen : (command :: payload).length ≤ 32 := by simp; omega
  have he := encodeReport_eq_of_le (command :: payload) hlen
  have hcount : 32 - (payload.length + 1) = 31 - payload.length := by omega
  have hshape : encodeReport (command :: payload)
      = 0 :: command :: (payload ++ List.replicate (31 - payload.length) 0) := by
    rw [he]
    simp only [List.cons_append, List.length_cons]
    rw [hcount]
  refine ⟨hshape, ?_, by decide⟩
  rw [hshape]
  simp only [List.length_cons, List.length_append, List.length_replicate]
  omega

/-- Witness for C1 at command = 2, payload = [5]. -/
theorem encode_frames_report_witness :
    encodeReport (2 :: [5]) = 0 :: 2 :: ([5] ++ List.replicate 30 0) ∧
    (encodeReport (2 :: [5])).length = 33 :=
  ⟨(encode_frames_report 2 [5] (by decide)).1,
   (encode_frames_report 2 [5] (by decide)).2.1⟩

/-- C2 counterexample: with a 32-byte payload (so 1 + payload length exceeds
REPORT_LENGTH), the encoding does not fail at all — no length check exists in
`send_raw_report` — and a 34-byte report is produced. -/
theorem encode_no_failure_counterexample :
    encodeReport (1 :: List.replicate 32 7) = 0 :: 1 :: List.replicate 32 7 ∧
    (encodeReport (1 :: List.replicate 32 7)).length = 34 := by
  constructor
  · decide
  · decide

/-- C2 amended: for every payload of length greater than 31, the encoding does
not fail with any error; the slice assignment grows the 33-byte buffer, and
the result is byte 0 = 0x00, byte 1 = command, then the entire payload with no
padding, for a total of payload length + 2 bytes. -/
theorem encode_overlong_no_check (command : Int) (payload : List Int)
    (h : 31 < payload.length) :
    encodeReport (command :: payload) = 0 :: command :: payload ∧
    (encodeReport (command :: payload)).length = payload.length + 2 := by
  have hlen : 32 < (command :: payload).length := by simp; omega
  have he := encodeReport_eq_of_gt (command :: payload) hlen
  refine ⟨he, ?_⟩
  rw [he]
  simp

/-- Witness for the amended C2 at a 32-byte payload. -/
theorem encode_overlong_no_check_witness :
    encodeReport (1 :: List.replicate 32 3) = 0 :: 1 :: List.replicate 32 3 ∧
    (encodeReport (1 :: List.replicate 32 3)).length = 32 + 2 :=
  ⟨(encode_overlong_no_check 1 (List.replicate 32 3) (by decide)).1,
   by rw [(encode_overlong_no_check 1 (List.replicate 32 3) (by decide)).2]; decide⟩

/-- C3: the first call to `get_cpu_usage` returns 0 whatever the counter value
is and clears the first-sample flag (the baseline is recorded); every call
with the flag cleared returns the rounded delta-derived counter value. -/
theorem first_sample_suppressed (v : ℚ) :
    get_cpu_usage true v = (0, false) ∧
    get_cpu_usage false v = (pyRound v, false) :=
  ⟨rfl, rfl⟩

/-- On a connected state, a tick reaches the hid write with the state
`tickWriteState`; an IoError escapes as an exception, a successful write with
an empty read logs the no-response message, and a successful write with a
non-empty read logs the formatted response. -/
theorem send_system_metrics_connected (s : MonitorState) (dev : HidDevice)
    (v : ℚ) (ram : Int) (resp : List Nat) (h : s.hid_interface = some dev) :
    send_system_metrics s v ram .ioError resp = .error (tickWriteState s v ram) ∧
    send_system_metrics s v ram .ok []
      = .ok (log_status (tickWriteState s v ram) "No response received.") ∧
    (resp.isEmpty = false → send_system_metrics s v ram .ok resp
      = .ok (log_status (tickWriteState s v ram) (formatResponse resp))) := by
  refine ⟨?_, ?_, fun hne => ?_⟩
  · simp [send_system_metrics, send_raw_report, tickWriteState, h]
  · simp [send_system_metrics, send_raw_report, tickWriteState, h]
  · simp [send_system_metrics, send_raw_report, tickWriteState, h, hne]

/-- A tick on a disconnected state returns the state unchanged. -/
theorem tick_noop_of_disconnected (s : MonitorState) (v : ℚ) (ram : Int)
    (w : WriteOutcome) (resp : List Nat) (h : s.hid_interface = none) :
    send_system_metrics s v ram w resp = .ok s ∧ step s (.tick v ram w resp) = s := by
  constructor <;> simp [send_system_metrics, step, h]

/-- A tick on a connected state appends exactly one report to the write trace,
whatever the write outcome and the response are. -/
theorem step_tick_written (s : MonitorState) (dev : HidDevice) (v : ℚ) (ram : Int)
    (w : WriteOutcome) (resp : List Nat) (h : s.hid_interface = some dev) :
    (step s (.tick v ram w resp)).written
      = s.written ++ [encodeReport (construct_data (get_cpu_usage s.is_first_sample v).1 ram)] := by
  cases w <;> cases resp <;>
    simp [step, send_system_metrics, send_raw_report, log_status, h]

/-- C4 counterexample: on a connected state, a tick whose hid write raises an
IoError is not caught anywhere on the tick path: the exception escapes the
Telemetry Loop boundary (`Except.error`) and no status message is produced —
the status log of the escaping state is still empty. -/
theorem ioerror_uncaught_counterexample :
    send_system_metrics connState 50 60 .ioError []
      = .error (tickWriteState connState 50 60) ∧
    (tickWriteState connState 50 60).statuses = [] ∧
    (tickWriteState connState 50 60).hid_interface = some devA :=
  ⟨rfl, rfl, rfl⟩

/-- C4 amended: a read timeout during a tick is turned into the status message
"No response received." and no failure escapes on that path; an IoError raised
by the write, however, is not caught at the tick boundary — it escapes as an
exception with no status message appended — although the connection state does
remain Connected with the handle and timer untouched (no auto-disconnect). -/
theorem tick_failure_handling (s : MonitorState) (dev : HidDevice) (v : ℚ)
    (ram : Int) (resp : List Nat) (h : s.hid_interface = some dev) :
    send_system_metrics s v ram .ioError resp = .error (tickWriteState s v ram) ∧
    (tickWriteState s v ram).statuses = s.statuses ∧
    (tickWriteState s v ram).hid_interface = some dev ∧
    (tickWriteState s v ram).timer_active = s.timer_active ∧
    send_system_metrics s v ram .ok []
      = .ok (log_status (tickWriteState s v ram) "No response received.") := by
  obtain ⟨h1, h2, -⟩ := send_system_metrics_connected s dev v ram resp h
  exact ⟨h1, rfl, by simp [tickWriteState, h], rfl, h2⟩

/-- Witness for the amended C4 on a concrete connected state. -/
theorem tick_failure_handling_witness :
    send_system_metrics connState 50 60 .ioError []
      = .error (tickWriteState connState 50 60) ∧
    (tickWriteState connState 50 60).statuses = connState.statuses ∧
    (tickWriteState connState 50 60).hid_interface = some devA ∧
    (tickWriteState connState 50 60).timer_active = connState.timer_active ∧
    send_system_metrics connState 50 60 .ok []
      = .ok (log_status (tickWriteState connState 50 60) "No response received.") :=
  tick_failure_handling connState devA 50 60 [] rfl

/-- C5: a tick whose read times out with zero bytes returns normally (no
exception), appends exactly the status "No response received.", leaves the
handle and the timer untouched (still Connected, loop still ticking), and the
next tick attempts a fresh exchange: one more report is written. -/
theorem timeout_logs_no_response (s : MonitorState) (dev : HidDevice)
    (v v2 : ℚ) (ram ram2 : Int) (w2 : WriteOutcome) (resp2 : List Nat)
    (h : s.hid_interface = some dev) :
    send_system_metrics s v ram .ok []
      = .ok (log_status (tickWriteState s v ram) "No response received.") ∧
    (log_status (tickWriteState s v ram) "No response received.").hid_interface
      = s.hid_interface ∧
    (log_status (tickWriteState s v ram) "No response received.").timer_active
      = s.timer_active ∧
    (log_status (tickWriteState s v ram) "No response received.").statuses
      = s.statuses ++ ["No response received."] ∧
    (step (log_status (tickWriteState s v ram) "No response received.")
        (.tick v2 ram2 w2 resp2)).written.length
      = (log_status (tickWriteState s v ram) "No response received.").written.length + 1 := by
  obtain ⟨-, h2, -⟩ := send_system_metrics_connected s dev v ram [] h
  have hconn : (log_status (tickWriteState s v ram) "No response received.").hid_interface
      = some dev := by simp [log_status, tickWriteState, h]
  refine ⟨h2, by simpa [h] using hconn, by simp [log_status, tickWriteState], ?_, ?_⟩
  · simp [log_status, tickWriteState]
  · rw [step_tick_written _ dev _ _ _ _ hconn]
    simp

/-- Witness for C5 on a concrete connected state. -/
theorem timeout_logs_no_response_witness :
    send_system_metrics connState 50 60 .ok []
      = .ok (log_status (tickWriteState connState 50 60) "No response received.") ∧
    (log_status (tickWriteState connState 50 60) "No response received.").hid_interface
      = connState.hid_interface ∧
    (log_status (tickWriteState connState 50 60) "No response received.").timer_active
      = connState.timer_active ∧
    (log_status (tickWriteState connState 50 60) "No response received.").statuses
      = connState.statuses ++ ["No response received."] ∧
    (step (log_status (tickWriteState connState 50 60) "No response received.")
        (.tick 51 61 .ok [])).written.length
      = (log_status (tickWriteState connState 50 60) "No response received.").written.length + 1 :=
  timeout_logs_no_response connState devA 50 51 60 61 .ok [] rfl

/-- C6: while no handle is held a tick is a no-op — the state is returned
unchanged, nothing is written and nothing is logged, whatever the device would
have done; and `handle_connect` on a no-match discovery leaves the handle
absent, logs the no-device message, and a subsequent tick is again a no-op. -/
theorem tick_disconnected_is_noop (s : MonitorState) (v v2 : ℚ) (ram ram2 : Int)
    (w w2 : WriteOutcome) (resp resp2 : List Nat) (h : s.hid_interface = none) :
    send_system_metrics s v ram w resp = .ok s ∧
    step s (.tick v ram w resp) = s ∧
    (handle_connect s none).hid_interface = none ∧
    (handle_connect s none).statuses = s.statuses
      ++ ["No device found. Check if device is plugged in and correct VID/PID/usage values."] ∧
    step (handle_connect s none) (.tick v2 ram2 w2 resp2) = handle_connect s none := by
  obtain ⟨h1, h2⟩ := tick_noop_of_disconnected s v ram w resp h
  have hc : (handle_connect s none).hid_interface = none := by
    simp [handle_connect, h, log_status]
  refine ⟨h1, h2, hc, ?_, (tick_noop_of_disconnected _ v2 ram2 w2 resp2 hc).2⟩
  simp [handle_connect, h, log_status]

/-- Witness for C6 starting from the freshly initialized state. -/
theorem tick_disconnected_is_noop_witness :
    send_system_metrics initState 50 60 .ok [] = .ok initState ∧
    step initState (.tick 50 60 .ok []) = initState ∧
    (handle_connect initState none).hid_interface = none ∧
    (handle_connect initState none).statuses = initState.statuses
      ++ ["No device found. Check if device is plugged in and correct VID/PID/usage values."] ∧
    step (handle_connect initState none) (.tick 51 61 .ioError [])
      = handle_connect initState none :=
  tick_disconnected_is_noop initState 50 51 60 61 .ok .ioError [] [] rfl

/-- C7: `handle_connect` on an already-connected state only logs
"Already connected.": the result is the same for every discovery outcome (no
discovery or open is consumed), and the handle, the timer and the write trace
are all unchanged. -/
theorem connect_when_connected_noop (s : MonitorState) (dev : HidDevice)
    (d : Option HidDevice) (h : s.hid_interface = some dev) :
    handle_connect s d = log_status s "Already connected." ∧
    (handle_connect s d).hid_interface = some dev ∧
    (handle_connect s d).timer_active = s.timer_active ∧
    (handle_connect s d).written = s.written := by
  have h1 : handle_connect s d = log_status s "Already connected." := by
    simp [handle_connect, h]
  rw [h1]
  exact ⟨rfl, by simp [log_status, h], by simp [log_status], by simp [log_status]⟩

/-- Witness for C7 on a concrete connected state, with a discovery that would
have found another device. -/
theorem connect_when_connected_noop_witness :
    handle_connect connState (some devA) = log_status connState "Already connected." ∧
    (handle_connect connState (some devA)).hid_interface = some devA ∧
    (handle_connect connState (some devA)).timer_active = connState.timer_active ∧
    (handle_connect connState (some devA)).written = connState.written :=
  connect_when_connected_noop connState devA (some devA) rfl

/-- Masking with the low byte of a natural complement never exceeds 255. -/
theorem ldiff_255_le (m : Nat) : Nat.ldiff 255 m ≤ 255 := by
  have h : Nat.ldiff 255 m < 2 ^ 8 := by
    apply Nat.lt_pow_two_of_testBit
    intro i hi
    rw [Nat.testBit_ldiff]
    have h255 : Nat.testBit 255 i = false := by
      apply Nat.testBit_lt_two_pow
      have : (2 : Nat) ^ 8 ≤ 2 ^ i := Nat.pow_le_pow_right (by norm_num) hi
      omega
    simp [h255]
  omega

/-- Python's `n & 0xFF` (two's-complement bitwise and, `Int.land`) always lands
in [0, 255], also for negative `n`. -/
theorem land_255_bounds (n : Int) : 0 ≤ Int.land n 255 ∧ Int.land n 255 ≤ 255 := by
  cases n with
  | ofNat m =>
    have h : Int.land (Int.ofNat m) 255 = Int.ofNat (m &&& 255) := rfl
    rw [h]
    exact ⟨Int.ofNat_nonneg _, Int.ofNat_le.mpr Nat.and_le_right⟩
  | negSucc m =>
    have h : Int.land (Int.negSucc m) 255 = Int.ofNat (Nat.ldiff 255 m) := rfl
    rw [h]
    exact ⟨Int.ofNat_nonneg _, Int.ofNat_le.mpr (ldiff_255_le m)⟩

/-- C8: for every pair of integer CPU/RAM values from the metrics provider —
negative and out-of-range values included — the cpu and ram entries placed
into the outbound data are the masked values `value & 0xFF` and lie in
[0, 255]. -/
theorem metric_bytes_in_range (cpu ram : Int) :
    construct_data cpu ram = [1, Int.land cpu 255, Int.land ram 255] ∧
    0 ≤ Int.land cpu 255 ∧ Int.land cpu 255 ≤ 255 ∧
    0 ≤ Int.land ram 255 ∧ Int.land ram 255 ≤ 255 :=
  ⟨rfl, (land_255_bounds cpu).1, (land_255_bounds cpu).2,
   (land_255_bounds ram).1, (land_255_bounds ram).2⟩

/-- Once the first-sample flag is cleared, no single event turns it back on. -/
theorem flag_stays_false_step (s : MonitorState) (e : Event)
    (h : s.is_first_sample = false) : (step s e).is_first_sample = false := by
  cases e with
  | connect d =>
    cases hs : s.hid_interface <;> cases d <;>
      simp [step, handle_connect, log_status, hs, h]
  | disconnect =>
    cases hs : s.hid_interface <;> simp [step, handle_disconnect, log_status, hs, h]
  | tick v r w resp =>
    cases hs : s.hid_interface <;> cases w <;> cases resp <;>
      simp [step, send_system_metrics, send_raw_report, get_cpu_usage, log_status, hs, h]

/-- Once the first-sample flag is cleared, it stays cleared over any event
sequence. -/
theorem flag_stays_false_run (s : MonitorState) (es : List Event)
    (h : s.is_first_sample = false) : (run s es).is_first_sample = false := by
  induction es generalizing s with
  | nil => simpa [run] using h
  | cons e es ih =>
    simpa [run, List.foldl_cons] using ih _ (flag_stays_false_step s e h)

/-- C9: the first-sample flag is established only at construction: neither
connect nor disconnect touches it, the first CPU sample clears it, and once
cleared it stays cleared across every later event sequence — including
disconnect/connect cycles — so every later sample returns the delta-derived
value, never the suppressed 0. -/
theorem first_sample_once_per_process (s : MonitorState) (d : Option HidDevice)
    (es : List Event) (v : ℚ) (hflag : s.is_first_sample = false) :
    (handle_connect s d).is_first_sample = s.is_first_sample ∧
    (handle_disconnect s).is_first_sample = s.is_first_sample ∧
    (get_cpu_usage true v).2 = false ∧
    (run s es).is_first_sample = false ∧
    get_cpu_usage (run s es).is_first_sample v = (pyRound v, false) := by
  refine ⟨?_, ?_, rfl, flag_stays_false_run s es hflag, ?_⟩
  · cases hs : s.hid_interface <;> cases d <;>
      simp [handle_connect, log_status, hs]
  · cases hs : s.hid_interface <;> simp [handle_disconnect, log_status, hs]
  · rw [flag_stays_false_run s es hflag]
    rfl

/-- Witness for C9: a full disconnect/reconnect cycle after the baseline was
established still yields the delta-derived sample. -/
theorem first_sample_once_per_process_witness :
    (handle_connect connState none).is_first_sample = connState.is_first_sample ∧
    (handle_disconnect connState).is_first_sample = connState.is_first_sample ∧
    (get_cpu_usage true 50).2 = false ∧
    (run connState [.disconnect, .connect (some devA)]).is_first_sample = false ∧
    get_cpu_usage (run connState [.disconnect, .connect (some devA)]).is_first_sample 50
      = (pyRound 50, false) :=
  first_sample_once_per_process connState none [.disconnect, .connect (some devA)] 50 rfl

/-- The C10 invariant: the periodic timer runs exactly when a handle is held. -/
def timerInv (s : MonitorState) : Prop :=
  s.timer_active = s.hid_interface.isSome

/-- Every event preserves the timer/handle invariant. -/
theorem timerInv_step (s : MonitorState) (e : Event) (h : timerInv s) :
    timerInv (step s e) := by
  cases e with
  | connect d =>
    cases hs : s.hid_interface <;> cases d <;>
      simp_all [step, handle_connect, log_status, timerInv, hs]
  | disconnect =>
    cases hs : s.hid_interface <;>
      simp_all [step, handle_disconnect, log_status, timerInv, hs]
  | tick v r w resp =>
    cases hs : s.hid_interface <;> cases w <;> cases resp <;>
      simp_all [step, send_system_metrics, send_raw_report, get_cpu_usage,
        log_status, timerInv, hs]

/-- The invariant holds along any run. -/
theorem timerInv_run (s : MonitorState) (es : List Event) (h : timerInv s) :
    timerInv (run s es) := by
  induction es generalizing s with
  | nil => simpa [run] using h
  | cons e es ih =>
    simpa [run, List.foldl_cons] using ih _ (timerInv_step s e h)

/-- C10: in every state reachable from the freshly constructed dialog by any
sequence of connect, disconnect and tick events — with arbitrary discovery
results and device behavior — the periodic timer is active exactly when a
device handle is held, so no tick ever fires against an absent handle. -/
theorem timer_active_iff_handle (es : List Event) :
    (run initState es).timer_active = (run initState es).hid_interface.isSome :=
  timerInv_run initState es rfl

end Monitor
